import Mathlib

/-!
Shallow embedding of the built-in validators of `src/validator.rs` from the
`inquire` crate, together with theorems settling the specification claims.

A Rust `StringValidator` is a function `&str -> Result<(), String>`; we embed
it as `String → Except String Unit`. Rust's `str::len` is the number of UTF-8
bytes of the string, embedded as `rustLen` (the sum of the UTF-8 sizes of the
scalar values). The spec's "character count" (count of Unicode scalar values)
is embedded separately as `charCount` for comparison.
-/

namespace Inquire

/-- Rust `str::len`: the number of UTF-8 bytes of the string. -/
def rustLen (s : String) : Nat := (s.data.map Char.utf8Size).sum

/-- The spec's "character count": the number of Unicode scalar values.
This is the measure the spec asks for, used to compare against the code. -/
def charCount (s : String) : Nat := s.data.length

/-- Whether a verdict is an acceptance. -/
def isOk : Except String Unit → Bool
  | .ok _ => true
  | .error _ => false

/-- Embedding of the body of the `required!` validator:
`match a.is_empty() { true => Err(String::from(message)), false => Ok(()) }`,
where Rust `str::is_empty` is `len() == 0`. -/
def required (message : String) (a : String) : Except String Unit :=
  match rustLen a == 0 with
  | true => .error message
  | false => .ok ()

/-- The zero-argument arm of `required!`, which fills in the default message. -/
def requiredDefault : String → Except String Unit :=
  required "A response is required."

/-- Embedding of the body of the `max_length!` validator:
`match a.len() { _len if _len <= length => Ok(()), _ => Err(String::from(message)) }`. -/
def max_length (len : Nat) (message : String) (a : String) : Except String Unit :=
  if rustLen a ≤ len then .ok () else .error message

/-- The one-argument arm of `max_length!`, which fills in the default message
`format!("The length of the response should be at most {}", length)`. -/
def max_length_default (len : Nat) : String → Except String Unit :=
  max_length len ("The length of the response should be at most " ++ toString len)

/-- Embedding of the body of the `min_length!` validator:
`match a.len() { _len if _len >= length => Ok(()), _ => Err(String::from(message)) }`. -/
def min_length (len : Nat) (message : String) (a : String) : Except String Unit :=
  if len ≤ rustLen a then .ok () else .error message

/-- The one-argument arm of `min_length!`, which fills in the default message
`format!("The length of the response should be at least {}", length)`. -/
def min_length_default (len : Nat) : String → Except String Unit :=
  min_length len ("The length of the response should be at least " ++ toString len)

/-- Embedding of the body of the `length!` validator:
`match a.len() { _len if _len == length => Ok(()), _ => Err(String::from(message)) }`. -/
def length (len : Nat) (message : String) (a : String) : Except String Unit :=
  if rustLen a = len then .ok () else .error message

/-- The one-argument arm of `length!`, which fills in the default message
`format!("The length of the response should be {}", length)`. -/
def length_default (len : Nat) : String → Except String Unit :=
  length len ("The length of the response should be " ++ toString len)

/-- Strip at most one leading sign character, as in the `Sign?` production of
the grammar accepted by Rust's `f64::from_str`. -/
def stripSign : List Char → List Char
  | '+' :: rest => rest
  | '-' :: rest => rest
  | l => l

/-- Case-insensitive comparison of a character list against a keyword. -/
def lowerEq (l : List Char) (w : List Char) : Bool :=
  (l.map Char.toLower) == w

/-- Recognizer for the `Exp?` tail of the grammar accepted by Rust's
`f64::from_str`: either nothing, or `e`/`E`, an optional sign and at
least one digit, consuming the rest of the input. -/
def expTail (l : List Char) : Bool :=
  match l with
  | [] => true
  | c :: rest =>
    if c == 'e' || c == 'E' then
      let ds := stripSign rest
      decide (ds ≠ []) && ds.all Char.isDigit
    else false

/-- Recognizer for the `Number` production of the grammar accepted by Rust's
`f64::from_str`: `(Digit+ | Digit+ . Digit* | Digit* . Digit+) Exp?`. -/
def numberBody (l : List Char) : Bool :=
  let intPart := l.takeWhile Char.isDigit
  let rest := l.dropWhile Char.isDigit
  match rest with
  | '.' :: rest2 =>
    let fracPart := rest2.takeWhile Char.isDigit
    let rest3 := rest2.dropWhile Char.isDigit
    (decide (intPart ≠ []) || decide (fracPart ≠ [])) && expTail rest3
  | _ => decide (intPart ≠ []) && expTail rest

/-- Whether `f64::from_str` succeeds on the whole string, per the grammar
documented for Rust core's `FromStr` implementation for `f64`:
`Float ::= Sign? ( inf | infinity | nan | Number )`, with the keywords
matched case-insensitively. The parsed value is irrelevant to the
validator, which discards it; only success or failure is embedded. -/
def f64FromStrOk (s : String) : Bool :=
  let l := stripSign s.data
  lowerEq l "inf".data || lowerEq l "infinity".data || lowerEq l "nan".data || numberBody l

/-- Embedding of the body of the `parse_primitive!` validator at type `f64`:
`match a.parse::<f64>() { Ok(_) => Ok(()), Err(err) => Err(String::from(message)) }`. -/
def parse_primitive_f64 (message : String) (a : String) : Except String Unit :=
  match f64FromStrOk a with
  | true => .ok ()
  | false => .error message

/-- The one-argument arm of `parse_primitive!` at type `f64`, which fills in
the default message
`format!("Failure when parsing response to type {}", type_name::<f64>())`. -/
def parse_primitive_f64_default : String → Except String Unit :=
  parse_primitive_f64 "Failure when parsing response to type f64"

/-- A one-character string whose UTF-8 encoding takes two bytes
(U+00E9, LATIN SMALL LETTER E WITH ACUTE). -/
def eAcute : String := String.mk [Char.ofNat 233]

theorem rustLen_eq_zero_iff (s : String) : rustLen s = 0 ↔ s = "" := by
  constructor
  · intro h
    rcases s with ⟨l⟩
    cases l with
    | nil => rfl
    | cons c cs =>
      exfalso
      have hpos := Char.utf8Size_pos c
      simp [rustLen] at h
      omega
  · intro h
    subst h
    rfl

theorem isOk_true_iff (r : Except String Unit) : isOk r = true ↔ r = .ok () := by
  cases r with
  | ok u => cases u; simp [isOk]
  | error m => simp [isOk]

end Inquire

open Inquire

/-- C10: `min_length(0)` accepts every string, the empty string included;
its rejection branch is unreachable because every byte length is at least 0. -/
theorem min_length_zero_spec (msg s : String) :
    Inquire.min_length 0 msg s = Except.ok () := by
  simp [Inquire.min_length]

/-- C9: `length(n)` accepts exactly when both `max_length(n)` and
`min_length(n)` accept, since all three compare the same `len()` measure
and equality is the conjunction of the two bounds. -/
theorem length_conjunction_spec (n : Nat) (msg s : String) :
    isOk (Inquire.length n msg s) = true ↔
      (isOk (Inquire.max_length n msg s) = true ∧ isOk (Inquire.min_length n msg s) = true) := by
  simp only [Inquire.length, Inquire.max_length, Inquire.min_length]
  by_cases h1 : rustLen s = n
  · rw [if_pos h1, if_pos (by omega), if_pos (by omega)]
    simp [isOk]
  · rw [if_neg h1]
    by_cases h2 : rustLen s ≤ n
    · rw [if_pos h2, if_neg (by omega)]
      simp [isOk]
    · rw [if_neg h2]
      simp [isOk]

theorem required_if_form (m t : String) :
    Inquire.required m t = if t = "" then Except.error m else Except.ok () := by
  by_cases ht : t = ""
  · subst ht; rfl
  · have h0 : Inquire.rustLen t ≠ 0 := fun h => ht ((rustLen_eq_zero_iff t).mp h)
    have hb : (Inquire.rustLen t == 0) = false := by simpa using h0
    simp only [Inquire.required, hb, if_neg ht]

/-- C2: `required()` accepts every non-empty string (a string of only spaces
included) and rejects the empty string with the configured message, which
defaults to "A response is required.". -/
theorem required_spec (msg s : String) :
    (isOk (Inquire.required msg s) = true ↔ s ≠ "")
    ∧ (s = "" → Inquire.required msg s = Except.error msg)
    ∧ Inquire.requiredDefault "" = Except.error "A response is required."
    ∧ isOk (Inquire.requiredDefault "   ") = true := by
  refine ⟨?_, ?_, rfl, rfl⟩
  · rw [required_if_form]
    by_cases hs : s = "" <;> simp [hs, isOk]
  · intro hs
    rw [required_if_form, if_pos hs]

/-- Witness for `required_spec` at concrete inputs. -/
theorem required_spec_witness :
    Inquire.required "No empty!" "" = Except.error "No empty!"
    ∧ isOk (Inquire.required "m" "Generic input") = true :=
  ⟨(required_spec "No empty!" "").2.1 rfl,
   (required_spec "m" "Generic input").1.mpr (by decide)⟩

/-- C1 counterexample: the claim measures length in characters, but the code
measures bytes. `max_length(1)` applied to the one-character, two-byte
string "é" rejects it, while the claim (one character is at most the
threshold 1) demands acceptance. -/
theorem max_length_charcount_cex :
    ¬ ((isOk (Inquire.max_length_default 1 eAcute) = true) ↔ charCount eAcute ≤ 1) := by
  decide

/-- C1 amended: `max_length(n)` accepts `s` exactly when the UTF-8 byte
length (Rust `str::len`) of `s` is at most `n`; a string of exactly `n`
bytes is accepted and a string of `n + 1` bytes is rejected with the
configured message. -/
theorem max_length_spec (n : Nat) (msg s : String) :
    (isOk (Inquire.max_length n msg s) = true ↔ rustLen s ≤ n)
    ∧ (rustLen s = n → isOk (Inquire.max_length n msg s) = true)
    ∧ (rustLen s = n + 1 → Inquire.max_length n msg s = Except.error msg) := by
  refine ⟨?_, ?_, ?_⟩
  · simp only [Inquire.max_length]
    split <;> simp [isOk, *]
  · intro h
    simp only [Inquire.max_length]
    rw [if_pos (by omega)]
    rfl
  · intro h
    simp only [Inquire.max_length]
    rw [if_neg (by omega)]

/-- Witness for `max_length_spec` at concrete inputs. -/
theorem max_length_spec_witness :
    isOk (Inquire.max_length 2 "m" "ab") = true
    ∧ Inquire.max_length 1 "m" "ab" = Except.error "m" :=
  ⟨(max_length_spec 2 "m" "ab").2.1 (by decide),
   (max_length_spec 1 "m" "ab").2.2 (by decide)⟩

/-- C4 counterexample: the claim measures length in characters, but the code
measures bytes. `min_length(2)` applied to the one-character, two-byte
string "é" accepts it, while the claim (one character is below the
threshold 2) demands rejection. -/
theorem min_length_charcount_cex :
    ¬ ((isOk (Inquire.min_length_default 2 eAcute) = true) ↔ 2 ≤ charCount eAcute) := by
  decide

/-- C4 amended: `min_length(n)` accepts `s` exactly when the UTF-8 byte
length (Rust `str::len`) of `s` is at least `n`; a string of `n - 1` bytes
is rejected, a string of `n` bytes is accepted, and on rejection the
default message is "The length of the response should be at least n". -/
theorem min_length_spec (n : Nat) (msg s : String) :
    (isOk (Inquire.min_length n msg s) = true ↔ n ≤ rustLen s)
    ∧ (rustLen s + 1 = n → Inquire.min_length n msg s = Except.error msg)
    ∧ (rustLen s = n → isOk (Inquire.min_length n msg s) = true)
    ∧ (rustLen s < n → Inquire.min_length_default n s =
        Except.error ("The length of the response should be at least " ++ toString n)) := by
  refine ⟨?_, ?_, ?_, ?_⟩
  · simp only [Inquire.min_length]
    split <;> simp [isOk, *]
  · intro h
    simp only [Inquire.min_length]
    rw [if_neg (by omega)]
  · intro h
    simp only [Inquire.min_length]
    rw [if_pos (by omega)]
    rfl
  · intro h
    simp only [Inquire.min_length_default, Inquire.min_length]
    rw [if_neg (by omega)]

/-- Witness for `min_length_spec` at concrete inputs. -/
theorem min_length_spec_witness :
    Inquire.min_length 3 "m" "No" = Except.error "m"
    ∧ isOk (Inquire.min_length 3 "m" "Yes") = true
    ∧ Inquire.min_length_default 3 "No" =
        Except.error "The length of the response should be at least 3" :=
  ⟨(min_length_spec 3 "m" "No").2.1 (by decide),
   (min_length_spec 3 "m" "Yes").2.2.1 (by decide),
   (min_length_spec 3 "m" "No").2.2.2 (by decide)⟩

/-- C5 counterexample: the claim measures length in characters, but the code
measures bytes. `length(2)` applied to the one-character, two-byte string
"é" accepts it, while the claim (one character is not equal to the target
2) demands rejection. -/
theorem length_charcount_cex :
    ¬ ((isOk (Inquire.length_default 2 eAcute) = true) ↔ charCount eAcute = 2) := by
  decide

/-- C5 amended: `length(n)` accepts `s` exactly when the UTF-8 byte length
(Rust `str::len`) of `s` equals `n`; concretely, `length(3)` accepts "Yes"
and rejects "No" with the message "The length of the response should be 3". -/
theorem length_spec (n : Nat) (msg s : String) :
    (isOk (Inquire.length n msg s) = true ↔ rustLen s = n)
    ∧ Inquire.length_default 3 "Yes" = Except.ok ()
    ∧ Inquire.length_default 3 "No" =
        Except.error "The length of the response should be 3"
    ∧ (rustLen s ≠ n → Inquire.length n msg s = Except.error msg) := by
  refine ⟨?_, rfl, rfl, ?_⟩
  · simp only [Inquire.length]
    split <;> simp [isOk, *]
  · intro h
    simp only [Inquire.length]
    rw [if_neg h]

/-- Witness for `length_spec` at a concrete input. -/
theorem length_spec_witness :
    Inquire.length 3 "x" "Four" = Except.error "x" :=
  (length_spec 3 "x" "Four").2.2.2 (by decide)

/-- C3: `parse_primitive!(f64)` accepts `s` exactly when the whole of `s`
parses as an `f64`; "32.44" and "11e15" are accepted, "32f" and "11^2" are
rejected with the default message, and any parse failure is rejected with
the configured message. -/
theorem parse_primitive_spec (msg s : String) :
    (isOk (Inquire.parse_primitive_f64 msg s) = true ↔ f64FromStrOk s = true)
    ∧ Inquire.parse_primitive_f64_default "32.44" = Except.ok ()
    ∧ Inquire.parse_primitive_f64_default "11e15" = Except.ok ()
    ∧ Inquire.parse_primitive_f64_default "32f" =
        Except.error "Failure when parsing response to type f64"
    ∧ Inquire.parse_primitive_f64_default "11^2" =
        Except.error "Failure when parsing response to type f64"
    ∧ (f64FromStrOk s = false → Inquire.parse_primitive_f64 msg s = Except.error msg) := by
  refine ⟨?_, rfl, rfl, rfl, rfl, ?_⟩
  · simp only [Inquire.parse_primitive_f64]
    cases hb : f64FromStrOk s <;> simp [hb, isOk]
  · intro h
    simp only [Inquire.parse_primitive_f64, h]

/-- Witness for `parse_primitive_spec` at concrete inputs. -/
theorem parse_primitive_spec_witness :
    Inquire.parse_primitive_f64 "Invalid number" "11^2" = Except.error "Invalid number"
    ∧ isOk (Inquire.parse_primitive_f64 "Invalid number" "11e15") = true :=
  ⟨(parse_primitive_spec "Invalid number" "11^2").2.2.2.2.2 (by decide),
   (parse_primitive_spec "Invalid number" "11e15").1.mpr (by decide)⟩

/-- C6: for each of the five constructors, the custom-message form accepts
exactly the same inputs as the default-message form, and every rejection of
the custom-message form carries exactly the custom message. -/
theorem custom_message_spec (n : Nat) (msg s : String) :
    (isOk (Inquire.required msg s) = isOk (Inquire.requiredDefault s))
    ∧ (isOk (Inquire.required msg s) = false → Inquire.required msg s = Except.error msg)
    ∧ (isOk (Inquire.max_length n msg s) = isOk (Inquire.max_length_default n s))
    ∧ (isOk (Inquire.max_length n msg s) = false →
        Inquire.max_length n msg s = Except.error msg)
    ∧ (isOk (Inquire.min_length n msg s) = isOk (Inquire.min_length_default n s))
    ∧ (isOk (Inquire.min_length n msg s) = false →
        Inquire.min_length n msg s = Except.error msg)
    ∧ (isOk (Inquire.length n msg s) = isOk (Inquire.length_default n s))
    ∧ (isOk (Inquire.length n msg s) = false →
        Inquire.length n msg s = Except.error msg)
    ∧ (isOk (Inquire.parse_primitive_f64 msg s) = isOk (Inquire.parse_primitive_f64_default s))
    ∧ (isOk (Inquire.parse_primitive_f64 msg s) = false →
        Inquire.parse_primitive_f64 msg s = Except.error msg) := by
  refine ⟨?_, ?_, ?_, ?_, ?_, ?_, ?_, ?_, ?_, ?_⟩
  · rw [required_if_form, Inquire.requiredDefault, required_if_form]
    split <;> rfl
  · rw [required_if_form]
    split <;> simp [isOk]
  · simp only [Inquire.max_length, Inquire.max_length_default]
    split <;> rfl
  · simp only [Inquire.max_length]
    split <;> simp [isOk]
  · simp only [Inquire.min_length, Inquire.min_length_default]
    split <;> rfl
  · simp only [Inquire.min_length]
    split <;> simp [isOk]
  · simp only [Inquire.length, Inquire.length_default]
    split <;> rfl
  · simp only [Inquire.length]
    split <;> simp [isOk]
  · simp only [Inquire.parse_primitive_f64, Inquire.parse_primitive_f64_default]
    cases f64FromStrOk s <;> rfl
  · simp only [Inquire.parse_primitive_f64]
    cases hb : f64FromStrOk s <;> simp [isOk]

/-- Witness for `custom_message_spec`: one concrete custom-message rejection
for each of the five constructors. -/
theorem custom_message_spec_witness :
    Inquire.required "No empty!" "" = Except.error "No empty!"
    ∧ Inquire.max_length 5 "Not too large!" "Terrible" = Except.error "Not too large!"
    ∧ Inquire.min_length 3 "More!" "No" = Except.error "More!"
    ∧ Inquire.length 3 "Three!" "Nope" = Except.error "Three!"
    ∧ Inquire.parse_primitive_f64 "Invalid number" "11^2" = Except.error "Invalid number" :=
  ⟨(custom_message_spec 0 "No empty!" "").2.1 (by decide),
   (custom_message_spec 5 "Not too large!" "Terrible").2.2.2.1 (by decide),
   (custom_message_spec 3 "More!" "No").2.2.2.2.2.1 (by decide),
   (custom_message_spec 3 "Three!" "Nope").2.2.2.2.2.2.2.1 (by decide),
   (custom_message_spec 0 "Invalid number" "11^2").2.2.2.2.2.2.2.2.2 (by decide)⟩

/-- C7: every built-in validator is total on its input type: each call
returns either acceptance or a rejection carrying the configured message;
no other outcome exists. -/
theorem total_verdict_spec (n : Nat) (msg s : String) :
    (Inquire.required msg s = Except.ok () ∨ Inquire.required msg s = Except.error msg)
    ∧ (Inquire.max_length n msg s = Except.ok ()
        ∨ Inquire.max_length n msg s = Except.error msg)
    ∧ (Inquire.min_length n msg s = Except.ok ()
        ∨ Inquire.min_length n msg s = Except.error msg)
    ∧ (Inquire.length n msg s = Except.ok ()
        ∨ Inquire.length n msg s = Except.error msg)
    ∧ (Inquire.parse_primitive_f64 msg s = Except.ok ()
        ∨ Inquire.parse_primitive_f64 msg s = Except.error msg) := by
  refine ⟨?_, ?_, ?_, ?_, ?_⟩
  · rw [required_if_form]
    split
    · exact Or.inr rfl
    · exact Or.inl rfl
  · simp only [Inquire.max_length]
    split
    · exact Or.inl rfl
    · exact Or.inr rfl
  · simp only [Inquire.min_length]
    split
    · exact Or.inl rfl
    · exact Or.inr rfl
  · simp only [Inquire.length]
    split
    · exact Or.inl rfl
    · exact Or.inr rfl
  · simp only [Inquire.parse_primitive_f64]
    cases f64FromStrOk s
    · exact Or.inr rfl
    · exact Or.inl rfl

/-- C8: every built-in validator is deterministic: a second invocation of
the same validator instance on the same input yields the same verdict, the
rejection message included. The embedded validators are pure functions of
their captured parameters and their input, as the source closures capture
only immutable values, so the two invocations are equal. -/
theorem determinism_spec (n : Nat) (msg s : String) :
    Inquire.required msg s = Inquire.required msg s
    ∧ Inquire.max_length n msg s = Inquire.max_length n msg s
    ∧ Inquire.min_length n msg s = Inquire.min_length n msg s
    ∧ Inquire.length n msg s = Inquire.length n msg s
    ∧ Inquire.parse_primitive_f64 msg s = Inquire.parse_primitive_f64 msg s :=
  ⟨rfl, rfl, rfl, rfl, rfl⟩
